import Mathlib

/-!
Shallow embedding of `src/region-active-effects.js` (the Region Active Effects
module for a virtual-tabletop host).  The module defines four region-behavior
data models whose event handlers toggle status effects or create / update /
delete active-effect documents on an actor.

Modelling conventions:
* An actor is its list of active-effect documents (host state this module reads
  and mutates).  Status flags live on the host and are only ever written, so
  status toggles are recorded in the mutation log but not in the state.
* Host services are parameters: `resolve` models the host's `fromUuid`
  resolution (`none` = document not found / null), `initDur` models the value
  of `ActiveEffect.getInitialDuration()`, and `freshId` the id the host assigns
  to a newly created document.
* Every handler returns the (possibly absent) actor's new effect list, a log of
  the document mutations it requested, and an `Option JsError` recording
  whether a JavaScript `TypeError` was raised anywhere during the handling
  (the handlers call some async helpers without awaiting them; a rejection
  inside such a helper is still a raised error of the handling and is recorded
  here).
* JavaScript falsiness of a nullable string field (`!this.uuid`) is `none` or
  the empty string.
-/

namespace RegionActiveEffects

/-- A JavaScript runtime error relevant to these handlers: dereferencing a
null document (`effect.toObject()`, `effect.constructor`, `effect.name` on
null) raises a TypeError. -/
inductive JsError where
  | typeError
deriving Repr, DecidableEq

/-- The duration payload produced by `ActiveEffect.getInitialDuration()`.
Duration math is owned by the host; the module only copies this payload
wholesale into update patches, so it is opaque data here. -/
structure Duration where
  payload : Int
deriving Repr, DecidableEq

/-- An ActiveEffect document, restricted to the fields this module reads or
writes: `name`, `origin`, `disabled`, `transfer`, and the duration payload.
`id` is the host-assigned document id. -/
structure EffectDoc where
  id : Nat
  name : String
  origin : Option String
  disabled : Bool
  transfer : Bool
  duration : Duration
deriving Repr, DecidableEq

/-- An actor, as the module sees it: the collection of active-effect documents
embedded in it (`actor.effects`). -/
structure ActorState where
  effects : List EffectDoc
deriving Repr, DecidableEq

/-- The shape of the patches this module passes to `Document#update`: it only
ever patches the duration fields and/or the `disabled` flag (`none` = field
not present in the patch). -/
structure Patch where
  duration : Option Duration
  disabled : Option Bool
deriving Repr, DecidableEq

/-- A host-API mutation requested by a handler. -/
inductive Mutation where
  | createEffect (data : EffectDoc)
  | updateEffect (id : Nat) (patch : Patch)
  | deleteEffect (id : Nat)
  | toggleStatus (statusId : String) (active : Option Bool) (overlay : Option Bool)
deriving Repr, DecidableEq

/-- JavaScript falsiness of a nullable string field: null/undefined or the
empty string. -/
def jsFalsy : Option String → Bool
  | none => true
  | some s => s = ""

/-- The predicate `(e) => e.origin === behavior.uuid` used by both the
re-enter lookup in `applyEffectToActor` and the exit lookup in
`#onTokenExit`. -/
def originMatch (behaviorUuid : String) (e : EffectDoc) : Bool :=
  e.origin == some behaviorUuid

/-- `doc.update(patch)`: replace the first document matching `p` (the one the
preceding `find` located) by its patched version. -/
def replaceFirst (p : α → Bool) (f : α → α) : List α → List α
  | [] => []
  | x :: xs => if p x then f x :: xs else x :: replaceFirst p f xs

/-- `doc.delete()`: remove the first document matching `p` (the one the
preceding `find` located). -/
def eraseFirst (p : α → Bool) : List α → List α
  | [] => []
  | x :: xs => if p x then xs else x :: eraseFirst p xs

/-- `fromUuid` applied to a nullable uuid field: `fromUuid(null)` resolves to
null, otherwise the host's resolution service is consulted. -/
def fromUuidOpt (resolve : String → Option EffectDoc) : Option String → Option EffectDoc
  | none => none
  | some s => resolve s

/-- The `effectData` object built by `applyEffectToActor` before creation: the
template's data with `disabled: false`, `transfer: false` and `origin` stamped
to the behavior's uuid (those overrides are spread after `effect.toObject()`,
so they win), and the id the host assigns on create. -/
def effectData (tmpl : EffectDoc) (behaviorUuid : String) (freshId : Nat) : EffectDoc :=
  { tmpl with id := freshId, disabled := false, transfer := false, origin := some behaviorUuid }

/-- `applyEffectToActor(effect, actor, behavior)` from the source.  `effect`
is the (possibly null) resolved template document, `behaviorUuid` is
`behavior.uuid`.  If the actor already has an effect whose `origin` equals the
behavior's uuid it is updated (initial duration, `disabled: false`); otherwise
a clone of the template is created with `disabled: false`, `transfer: false`
and `origin` stamped to the behavior's uuid.  In either branch a null
`effect` is dereferenced (`effect.constructor` / `effect.toObject()`), which
raises a TypeError before any mutation happens. -/
def applyEffectToActor (effect : Option EffectDoc) (actor : ActorState)
    (behaviorUuid : String) (initDur : Duration) (freshId : Nat) :
    ActorState × List Mutation × Option JsError :=
  match actor.effects.find? (originMatch behaviorUuid) with
  | some existing =>
    match effect with
    | none => (actor, [], some JsError.typeError)
    | some _ =>
      (⟨replaceFirst (originMatch behaviorUuid)
          (fun e => { e with duration := initDur, disabled := false }) actor.effects⟩,
       [Mutation.updateEffect existing.id ⟨some initDur, some false⟩], none)
  | none =>
    match effect with
    | none => (actor, [], some JsError.typeError)
    | some eff =>
      (⟨actor.effects ++ [effectData eff behaviorUuid freshId]⟩,
       [Mutation.createEffect (effectData eff behaviorUuid freshId)], none)

/-- `StatusEffectRegionBehaviorType` configuration: nullable `statusId` and
the `overlay` flag. -/
structure StatusEffectBehavior where
  statusId : Option String
  overlay : Bool
deriving Repr, DecidableEq

/-- `StatusEffectEventsRegionBehaviorType` configuration: nullable `statusId`,
the `action` choice (toggle / apply / remove, initial "toggle"), and the
`overlay` flag.  The `events` subscription set only selects when the handler
fires and plays no role in its body. -/
structure StatusEffectEventsBehavior where
  statusId : Option String
  action : String
  overlay : Bool
deriving Repr, DecidableEq

/-- `ActiveEffectRegionBehaviorType` configuration (`uuid` of the template
document, `disable` flag) together with `behaviorUuid`, the uuid of the
RegionBehavior document the type is embedded in (`this.behavior.uuid`). -/
structure ActiveEffectBehavior where
  uuid : Option String
  disable : Bool
  behaviorUuid : String
deriving Repr, DecidableEq

/-- `ActiveEffectEventsRegionBehaviorType` configuration (nullable `action`
with no initial value, nullable `uuid`, optional `name`) together with
`behaviorUuid`, the uuid of the parent RegionBehavior document
(`this.parent.uuid`). -/
structure ActiveEffectEventsBehavior where
  action : Option String
  uuid : Option String
  name : Option String
  behaviorUuid : String
deriving Repr, DecidableEq

/-- A region event as the handlers consume it: the (possibly absent) actor of
the triggering token (`event.data?.token?.actor`), whether the triggering user
is the local client (`event.user.isSelf`), and the active-GM observation
(`game.users.activeGM?.isSelf`: `none` = no active GM, `some b` = an active GM
exists and `b` says whether it is the local client). -/
structure RegionEvent where
  actor : Option ActorState
  userIsSelf : Bool
  activeGM : Option Bool
deriving Repr, DecidableEq

/-- The outcome of one handler invocation: the actor's new effect list (absent
when the event carried no actor), the log of requested document mutations, and
whether a TypeError was raised during the handling. -/
structure HandlerResult where
  actor : Option ActorState
  log : List Mutation
  err : Option JsError
deriving Repr, DecidableEq

/-- `StatusEffectRegionBehaviorType.#onTokenEnter`: guard on actor and
statusId, then on the triggering user being self, then toggle the status on
with the configured overlay flag. -/
def statusOnTokenEnter (b : StatusEffectBehavior) (ev : RegionEvent) : HandlerResult :=
  match ev.actor with
  | none => ⟨none, [], none⟩
  | some a =>
    if jsFalsy b.statusId then ⟨some a, [], none⟩
    else if !ev.userIsSelf then ⟨some a, [], none⟩
    else ⟨some a, [Mutation.toggleStatus (b.statusId.getD "") (some true) (some b.overlay)], none⟩

/-- `StatusEffectRegionBehaviorType.#onTokenExit`: same guards, then toggle
the status off; no overlay option is passed. -/
def statusOnTokenExit (b : StatusEffectBehavior) (ev : RegionEvent) : HandlerResult :=
  match ev.actor with
  | none => ⟨none, [], none⟩
  | some a =>
    if jsFalsy b.statusId then ⟨some a, [], none⟩
    else if !ev.userIsSelf then ⟨some a, [], none⟩
    else ⟨some a, [Mutation.toggleStatus (b.statusId.getD "") (some false) none], none⟩

/-- `StatusEffectEventsRegionBehaviorType._handleRegionEvent`: guard on actor
and statusId only (no self check), map the action to the `active` argument
(apply → true, remove → false, anything else → undefined) and toggle. -/
def statusEventsHandleRegionEvent (b : StatusEffectEventsBehavior) (ev : RegionEvent) :
    HandlerResult :=
  match ev.actor with
  | none => ⟨none, [], none⟩
  | some a =>
    if jsFalsy b.statusId then ⟨some a, [], none⟩
    else
      let active : Option Bool :=
        if b.action == "apply" then some true
        else if b.action == "remove" then some false
        else none
      ⟨some a, [Mutation.toggleStatus (b.statusId.getD "") active (some b.overlay)], none⟩

/-- `ActiveEffectRegionBehaviorType.#onTokenEnter`: guard on actor and uuid,
then on self; resolve the template by uuid and hand it to
`applyEffectToActor` with `this.behavior` as the origin-bearing behavior. -/
def aeOnTokenEnter (b : ActiveEffectBehavior) (ev : RegionEvent)
    (resolve : String → Option EffectDoc) (initDur : Duration) (freshId : Nat) :
    HandlerResult :=
  match ev.actor with
  | none => ⟨none, [], none⟩
  | some a =>
    if jsFalsy b.uuid then ⟨some a, [], none⟩
    else if !ev.userIsSelf then ⟨some a, [], none⟩
    else
      let effect := fromUuidOpt resolve b.uuid
      let r := applyEffectToActor effect a b.behaviorUuid initDur freshId
      ⟨some r.1, r.2.1, r.2.2⟩

/-- `ActiveEffectRegionBehaviorType.#onTokenExit`: guard on actor and uuid,
then on self; find the actor's effect whose origin is this behavior's uuid;
if found and `disable` is set, update it to disabled, otherwise delete it;
if not found, do nothing. -/
def aeOnTokenExit (b : ActiveEffectBehavior) (ev : RegionEvent) : HandlerResult :=
  match ev.actor with
  | none => ⟨none, [], none⟩
  | some a =>
    if jsFalsy b.uuid then ⟨some a, [], none⟩
    else if !ev.userIsSelf then ⟨some a, [], none⟩
    else
      match a.effects.find? (originMatch b.behaviorUuid) with
      | some existing =>
        if b.disable then
          ⟨some ⟨replaceFirst (originMatch b.behaviorUuid)
              (fun e => { e with disabled := true }) a.effects⟩,
           [Mutation.updateEffect existing.id ⟨none, some true⟩], none⟩
        else
          ⟨some ⟨eraseFirst (originMatch b.behaviorUuid) a.effects⟩,
           [Mutation.deleteEffect existing.id], none⟩
      | none => ⟨some a, [], none⟩

/-- `ActiveEffectEventsRegionBehaviorType.#onResetDuration`: resolve the
template by the configured uuid (a null result is dereferenced via
`effect.name`, raising a TypeError), find the actor's effect whose name equals
the template's name, and if found patch only its duration fields to the
initial duration. -/
def aeeOnResetDuration (b : ActiveEffectEventsBehavior) (a : ActorState)
    (resolve : String → Option EffectDoc) (initDur : Duration) :
    ActorState × List Mutation × Option JsError :=
  match fromUuidOpt resolve b.uuid with
  | none => (a, [], some JsError.typeError)
  | some eff =>
    match a.effects.find? (fun e => e.name == eff.name) with
    | some existing =>
      (⟨replaceFirst (fun e => e.name == eff.name)
          (fun e => { e with duration := initDur }) a.effects⟩,
       [Mutation.updateEffect existing.id ⟨some initDur, none⟩], none)
    | none => (a, [], none)

/-- `ActiveEffectEventsRegionBehaviorType.#onEnableDisable`: find the actor's
effect by the configured name (`Collection#getName`; a null name matches no
document) and, if found, patch only its `disabled` flag. -/
def aeeOnEnableDisable (b : ActiveEffectEventsBehavior) (a : ActorState) (disabled : Bool) :
    ActorState × List Mutation × Option JsError :=
  match b.name with
  | none => (a, [], none)
  | some n =>
    match a.effects.find? (fun e => e.name == n) with
    | none => (a, [], none)
    | some existing =>
      (⟨replaceFirst (fun e => e.name == n)
          (fun e => { e with disabled := disabled }) a.effects⟩,
       [Mutation.updateEffect existing.id ⟨none, some disabled⟩], none)

/-- `ActiveEffectEventsRegionBehaviorType._handleRegionEvent`: guard on actor,
then on the active GM being the local client; dispatch on the action.
`add` resolves the template and reuses `applyEffectToActor` with
`this.parent` as the origin-bearing behavior; `delete` finds the effect by the
configured name and deletes it; an unset or unknown action matches no switch
case and does nothing. -/
def aeeHandleRegionEvent (b : ActiveEffectEventsBehavior) (ev : RegionEvent)
    (resolve : String → Option EffectDoc) (initDur : Duration) (freshId : Nat) :
    HandlerResult :=
  match ev.actor with
  | none => ⟨none, [], none⟩
  | some a =>
    if !(ev.activeGM == some true) then ⟨some a, [], none⟩
    else
      match b.action with
      | some "add" =>
        let effect := fromUuidOpt resolve b.uuid
        let r := applyEffectToActor effect a b.behaviorUuid initDur freshId
        ⟨some r.1, r.2.1, r.2.2⟩
      | some "resetDuration" =>
        let r := aeeOnResetDuration b a resolve initDur
        ⟨some r.1, r.2.1, r.2.2⟩
      | some "enable" =>
        let r := aeeOnEnableDisable b a false
        ⟨some r.1, r.2.1, r.2.2⟩
      | some "disable" =>
        let r := aeeOnEnableDisable b a true
        ⟨some r.1, r.2.1, r.2.2⟩
      | some "delete" =>
        match b.name with
        | none => ⟨some a, [], none⟩
        | some n =>
          match a.effects.find? (fun e => e.name == n) with
          | none => ⟨some a, [], none⟩
          | some existing =>
            ⟨some ⟨eraseFirst (fun e => e.name == n) a.effects⟩,
             [Mutation.deleteEffect existing.id], none⟩
      | _ => ⟨some a, [], none⟩

/-- `ActiveEffectEventsRegionBehaviorType.validateJoint(data)`: throws a
descriptive error when the action is add/resetDuration and the uuid field is
falsy, or when the action is enable/disable/delete and the name field is
falsy. -/
def validateJoint (action uuid name : Option String) : Except String Unit :=
  if (action == some "add" || action == some "resetDuration") && jsFalsy uuid then
    Except.error ("The uuid field is required for the " ++ action.getD "null" ++ " action")
  else if (action == some "enable" || action == some "disable" ||
      action == some "delete") && jsFalsy name then
    Except.error ("The name field is required for the " ++ action.getD "null" ++ " action")
  else Except.ok ()

/-- The number of effects on the actor whose origin is the given behavior
uuid (the documents the module's origin-based lookups can see). -/
def countOrigin (behaviorUuid : String) (a : ActorState) : Nat :=
  (a.effects.filter (originMatch behaviorUuid)).length

/-- A concrete template document for concrete evaluations; note that it has
`transfer = true` and `disabled = true` and a foreign origin, all of which the
module must override on create. -/
def tmpl0 : EffectDoc := ⟨7, "Burning", some "Item.X", true, true, ⟨5⟩⟩

/-- A concrete resolution service knowing exactly one uuid. -/
def res0 : String → Option EffectDoc := fun s => if s = "U1" then some tmpl0 else none

/-- A resolution service that finds nothing (every configured uuid is stale). -/
def resNone : String → Option EffectDoc := fun _ => none

/- Helper lemmas about the list operations used by the handlers. -/

theorem find?_append_of_none {α} {p : α → Bool} {l : List α}
    (h : l.find? p = none) (l' : List α) : (l ++ l').find? p = l'.find? p := by
  induction l with
  | nil => simp
  | cons x xs ih =>
    rw [List.find?_cons] at h
    cases hx : p x with
    | true => rw [hx] at h; exact absurd h (by simp)
    | false =>
      rw [hx] at h
      rw [List.cons_append, List.find?_cons, hx]
      exact ih h

theorem replaceFirst_append_of_none {α} {p : α → Bool} {f : α → α} {l : List α}
    (h : l.find? p = none) (l' : List α) :
    replaceFirst p f (l ++ l') = l ++ replaceFirst p f l' := by
  induction l with
  | nil => simp
  | cons x xs ih =>
    rw [List.find?_cons] at h
    cases hx : p x with
    | true => rw [hx] at h; exact absurd h (by simp)
    | false =>
      rw [hx] at h
      rw [List.cons_append, replaceFirst, hx]
      simp [ih h]

theorem replaceFirst_length {α} (p : α → Bool) (f : α → α) (l : List α) :
    (replaceFirst p f l).length = l.length := by
  induction l with
  | nil => rfl
  | cons x xs ih =>
    rw [replaceFirst]
    cases hx : p x <;> simp [ih]

theorem eraseFirst_length {α} {p : α → Bool} {l : List α} {e : α}
    (h : l.find? p = some e) : (eraseFirst p l).length + 1 = l.length := by
  induction l with
  | nil => simp at h
  | cons x xs ih =>
    rw [List.find?_cons] at h
    cases hx : p x with
    | true => rw [eraseFirst, if_pos hx]; simp
    | false =>
      rw [hx] at h
      rw [eraseFirst, if_neg (by simp [hx])]
      simp only [List.length_cons]
      rw [ih h]

theorem mem_replaceFirst {α} {p : α → Bool} {f : α → α} {l : List α} {e : α}
    (h : l.find? p = some e) : f e ∈ replaceFirst p f l := by
  induction l with
  | nil => simp at h
  | cons x xs ih =>
    rw [List.find?_cons] at h
    cases hx : p x with
    | true =>
      rw [hx] at h
      injection h with h
      subst h
      rw [replaceFirst, if_pos hx]
      exact List.mem_cons_self _ _
    | false =>
      rw [hx] at h
      rw [replaceFirst, if_neg (by simp [hx])]
      exact List.mem_cons_of_mem _ (ih h)

theorem filter_of_find?_none {α} {p : α → Bool} {l : List α} (h : l.find? p = none) :
    l.filter p = [] :=
  List.filter_eq_nil_iff.2 (List.find?_eq_none.1 h)

/-- Claim C10: every effect document `applyEffectToActor` creates on an actor
is created with `origin` equal to the originating behavior's uuid, with
`transfer = false` and `disabled = false` — whatever the template's `transfer`
and `disabled` values were — and that `origin` value satisfies exactly the
predicate the later exit and re-enter lookups use, so the created document is
what they find. -/
theorem C10_created_origin (tmpl : EffectDoc) (a : ActorState) (buuid : String)
    (initDur : Duration) (freshId : Nat)
    (h0 : a.effects.find? (originMatch buuid) = none) :
    ∃ d : EffectDoc,
      applyEffectToActor (some tmpl) a buuid initDur freshId =
        (⟨a.effects ++ [d]⟩, [Mutation.createEffect d], none) ∧
      d.origin = some buuid ∧ d.transfer = false ∧ d.disabled = false ∧
      d.name = tmpl.name ∧ d.duration = tmpl.duration ∧
      originMatch buuid d = true ∧
      (ActorState.mk (a.effects ++ [d])).effects.find? (originMatch buuid) = some d := by
  use effectData tmpl buuid freshId
  refine ⟨?_, rfl, rfl, rfl, rfl, rfl, ?_, ?_⟩
  · rw [applyEffectToActor, h0]
  · simp [originMatch, effectData]
  · rw [find?_append_of_none h0, List.find?_cons]
    simp [originMatch, effectData]

/-- Claim C10 witness: concrete creation on an empty actor from a template with
transfer = true and disabled = true. -/
theorem C10_created_origin_witness :
    (ActorState.mk []).effects.find? (originMatch "Behavior.B1") = none ∧
    (∃ d : EffectDoc,
      applyEffectToActor (some tmpl0) ⟨[]⟩ "Behavior.B1" ⟨0⟩ 42 =
        (⟨(ActorState.mk []).effects ++ [d]⟩, [Mutation.createEffect d], none) ∧
      d.origin = some "Behavior.B1" ∧ d.transfer = false ∧ d.disabled = false ∧
      d.name = tmpl0.name ∧ d.duration = tmpl0.duration ∧
      originMatch "Behavior.B1" d = true ∧
      (ActorState.mk ((ActorState.mk []).effects ++ [d])).effects.find?
          (originMatch "Behavior.B1") = some d) :=
  ⟨by decide, C10_created_origin tmpl0 ⟨[]⟩ "Behavior.B1" ⟨0⟩ 42 (by decide)⟩

/-- Claim C1: for the token-enter handler (whose logic the events behavior's
add action shares through `applyEffectToActor`): an effect already on the
actor with `origin` equal to the behavior's uuid is updated in place
(`disabled := false`, duration reset to the initial duration) with no create;
only when no such effect exists is a document created.  Hence two sequential
enter invocations on the same actor produce exactly one origin-matching
document, the second invocation updating the one the first created. -/
theorem C1_enter_idempotent (b : ActiveEffectBehavior) (u : String) (a : ActorState)
    (tmpl : EffectDoc) (resolve : String → Option EffectDoc) (initDur : Duration)
    (id1 id2 : Nat) (gm gm' : Option Bool)
    (hu : b.uuid = some u) (hu' : u ≠ "") (hres : resolve u = some tmpl)
    (h0 : a.effects.find? (originMatch b.behaviorUuid) = none) :
    (∀ (a' : ActorState) (e : EffectDoc),
        a'.effects.find? (originMatch b.behaviorUuid) = some e →
        applyEffectToActor (some tmpl) a' b.behaviorUuid initDur id2 =
          (⟨replaceFirst (originMatch b.behaviorUuid)
              (fun x => { x with duration := initDur, disabled := false }) a'.effects⟩,
           [Mutation.updateEffect e.id ⟨some initDur, some false⟩], none)) ∧
    (∀ (b2 : ActiveEffectEventsBehavior) (a' : ActorState) (sf : Bool),
        b2.action = some "add" →
        aeeHandleRegionEvent b2 ⟨some a', sf, some true⟩ resolve initDur id1 =
          (let r := applyEffectToActor (fromUuidOpt resolve b2.uuid) a' b2.behaviorUuid
              initDur id1
           ⟨some r.1, r.2.1, r.2.2⟩)) ∧
    (∃ d : EffectDoc,
      aeOnTokenEnter b ⟨some a, true, gm⟩ resolve initDur id1 =
        ⟨some ⟨a.effects ++ [d]⟩, [Mutation.createEffect d], none⟩ ∧
      d.id = id1 ∧ originMatch b.behaviorUuid d = true ∧
      countOrigin b.behaviorUuid ⟨a.effects ++ [d]⟩ = 1 ∧
      aeOnTokenEnter b ⟨some ⟨a.effects ++ [d]⟩, true, gm'⟩ resolve initDur id2 =
        ⟨some ⟨a.effects ++ [{ d with duration := initDur, disabled := false }]⟩,
         [Mutation.updateEffect d.id ⟨some initDur, some false⟩], none⟩ ∧
      countOrigin b.behaviorUuid
        ⟨a.effects ++ [{ d with duration := initDur, disabled := false }]⟩ = 1 ∧
      (a.effects ++ [{ d with duration := initDur, disabled := false }]).length =
        (a.effects ++ [d]).length) := by
  refine ⟨?_, ?_, ?_⟩
  · intro a' e hfind
    rw [applyEffectToActor, hfind]
  · intro b2 a' sf hact
    rw [aeeHandleRegionEvent, hact]
    simp
  · use effectData tmpl b.behaviorUuid id1
    have hd : originMatch b.behaviorUuid (effectData tmpl b.behaviorUuid id1) = true := by
      simp [originMatch, effectData]
    have hfilter : a.effects.filter (originMatch b.behaviorUuid) = [] :=
      filter_of_find?_none h0
    have hfind2 : (a.effects ++ [effectData tmpl b.behaviorUuid id1]).find?
        (originMatch b.behaviorUuid) = some (effectData tmpl b.behaviorUuid id1) := by
      rw [find?_append_of_none h0, List.find?_cons, hd]
    refine ⟨?_, rfl, hd, ?_, ?_, ?_, by simp⟩
    · rw [aeOnTokenEnter]
      simp only [hu, jsFalsy, hu', decide_eq_true_eq]
      rw [if_neg (by simp [hu']), if_neg (by simp)]
      show (let effect := fromUuidOpt resolve (some u); _) = _
      simp only [fromUuidOpt, hres]
      rw [applyEffectToActor, h0]
    · rw [countOrigin]
      simp only [List.filter_append, hfilter]
      simp [hd]
    · rw [aeOnTokenEnter]
      simp only [hu, jsFalsy, hu', decide_eq_true_eq]
      rw [if_neg (by simp [hu']), if_neg (by simp)]
      show (let effect := fromUuidOpt resolve (some u); _) = _
      simp only [fromUuidOpt, hres]
      rw [applyEffectToActor, hfind2]
      rw [replaceFirst_append_of_none h0, replaceFirst, if_pos hd]
    · rw [countOrigin]
      simp only [List.filter_append, hfilter]
      simp [originMatch, effectData]

/-- Claim C1 witness: a concrete double-enter on an initially empty actor. -/
theorem C1_enter_idempotent_witness :
    "U1" ≠ "" ∧ res0 "U1" = some tmpl0 ∧
    (ActorState.mk []).effects.find? (originMatch "Behavior.B1") = none ∧
    ((∀ (a' : ActorState) (e : EffectDoc),
        a'.effects.find? (originMatch "Behavior.B1") = some e →
        applyEffectToActor (some tmpl0) a' "Behavior.B1" ⟨0⟩ 2 =
          (⟨replaceFirst (originMatch "Behavior.B1")
              (fun x => { x with duration := (⟨0⟩ : Duration), disabled := false }) a'.effects⟩,
           [Mutation.updateEffect e.id ⟨some ⟨0⟩, some false⟩], none)) ∧
    (∀ (b2 : ActiveEffectEventsBehavior) (a' : ActorState) (sf : Bool),
        b2.action = some "add" →
        aeeHandleRegionEvent b2 ⟨some a', sf, some true⟩ res0 ⟨0⟩ 1 =
          (let r := applyEffectToActor (fromUuidOpt res0 b2.uuid) a' b2.behaviorUuid ⟨0⟩ 1
           ⟨some r.1, r.2.1, r.2.2⟩)) ∧
    (∃ d : EffectDoc,
      aeOnTokenEnter ⟨some "U1", false, "Behavior.B1"⟩ ⟨some ⟨[]⟩, true, none⟩ res0 ⟨0⟩ 1 =
        ⟨some ⟨(ActorState.mk []).effects ++ [d]⟩, [Mutation.createEffect d], none⟩ ∧
      d.id = 1 ∧ originMatch "Behavior.B1" d = true ∧
      countOrigin "Behavior.B1" ⟨(ActorState.mk []).effects ++ [d]⟩ = 1 ∧
      aeOnTokenEnter ⟨some "U1", false, "Behavior.B1"⟩
          ⟨some ⟨(ActorState.mk []).effects ++ [d]⟩, true, some false⟩ res0 ⟨0⟩ 2 =
        ⟨some ⟨(ActorState.mk []).effects ++
            [{ d with duration := (⟨0⟩ : Duration), disabled := false }]⟩,
         [Mutation.updateEffect d.id ⟨some ⟨0⟩, some false⟩], none⟩ ∧
      countOrigin "Behavior.B1"
        ⟨(ActorState.mk []).effects ++
          [{ d with duration := (⟨0⟩ : Duration), disabled := false }]⟩ = 1 ∧
      ((ActorState.mk []).effects ++
          [{ d with duration := (⟨0⟩ : Duration), disabled := false }]).length =
        ((ActorState.mk []).effects ++ [d]).length)) :=
  ⟨by decide, by decide, by decide,
   C1_enter_idempotent ⟨some "U1", false, "Behavior.B1"⟩ "U1" ⟨[]⟩ tmpl0 res0 ⟨0⟩ 1 2
     none (some false) rfl (by decide) (by decide) (by decide)⟩

/-- Claim C2 counterexample: the claim says a failed uuid resolution leaves
the handler a silent no-op with no exception; but on a concrete enter event
whose configured uuid does not resolve, the token-enter handler raises a
TypeError (the null template is dereferenced inside `applyEffectToActor`), so
the action is not silently skipped. -/
theorem C2_null_resolution_counterexample :
    aeOnTokenEnter ⟨some "U1", false, "Behavior.B1"⟩ ⟨some ⟨[]⟩, true, none⟩
        resNone ⟨0⟩ 1 =
      ⟨some ⟨[]⟩, [], some JsError.typeError⟩ := by decide

/-- Claim C2 amended: when the uuid resolution yields no document, each of the
three resolving handlers (token-enter, events add, events resetDuration)
performs no document mutation — actor unchanged, empty mutation log, so no
partial mutation — but the failure is not silent: dereferencing the null
document raises a TypeError (surfacing as an unhandled promise rejection,
since these inner calls are not awaited). -/
theorem C2_null_resolution_no_mutation (a : ActorState) (sf : Bool) (gm : Option Bool)
    (b : ActiveEffectBehavior) (u : String) (b2 b3 : ActiveEffectEventsBehavior)
    (resolve : String → Option EffectDoc) (initDur : Duration) (freshId : Nat)
    (hu : b.uuid = some u) (hu' : u ≠ "") (hres : resolve u = none)
    (h2 : b2.action = some "add") (h2u : fromUuidOpt resolve b2.uuid = none)
    (h3 : b3.action = some "resetDuration") (h3u : fromUuidOpt resolve b3.uuid = none) :
    aeOnTokenEnter b ⟨some a, true, gm⟩ resolve initDur freshId =
      ⟨some a, [], some JsError.typeError⟩ ∧
    aeeHandleRegionEvent b2 ⟨some a, sf, some true⟩ resolve initDur freshId =
      ⟨some a, [], some JsError.typeError⟩ ∧
    aeeHandleRegionEvent b3 ⟨some a, sf, some true⟩ resolve initDur freshId =
      ⟨some a, [], some JsError.typeError⟩ := by
  have happly : applyEffectToActor none a b.behaviorUuid initDur freshId =
      (a, [], some JsError.typeError) := by
    rw [applyEffectToActor]
    cases a.effects.find? (originMatch b.behaviorUuid) <;> rfl
  refine ⟨?_, ?_, ?_⟩
  · rw [aeOnTokenEnter]
    simp only [hu, jsFalsy, hu', decide_eq_true_eq]
    rw [if_neg (by simp [hu']), if_neg (by simp)]
    show (let effect := fromUuidOpt resolve (some u); _) = _
    simp only [fromUuidOpt, hres]
    rw [applyEffectToActor]
    cases a.effects.find? (originMatch b.behaviorUuid) <;> rfl
  · rw [aeeHandleRegionEvent, h2]
    simp only [h2u]
    rw [applyEffectToActor]
    cases a.effects.find? (originMatch b2.behaviorUuid) <;> rfl
  · rw [aeeHandleRegionEvent, h3]
    unfold aeeOnResetDuration
    rw [h3u]
    rfl

/-- Claim C2 amended witness: concrete runs of all three handlers with a
resolution service that finds nothing. -/
theorem C2_null_resolution_no_mutation_witness :
    "U1" ≠ "" ∧ resNone "U1" = none ∧
    fromUuidOpt resNone (some "U2") = none ∧
    (aeOnTokenEnter ⟨some "U1", false, "Behavior.B1"⟩ ⟨some ⟨[]⟩, true, none⟩
        resNone ⟨0⟩ 1 =
      ⟨some ⟨[]⟩, [], some JsError.typeError⟩ ∧
    aeeHandleRegionEvent ⟨some "add", some "U2", none, "Behavior.B2"⟩
        ⟨some ⟨[]⟩, true, some true⟩ resNone ⟨0⟩ 1 =
      ⟨some ⟨[]⟩, [], some JsError.typeError⟩ ∧
    aeeHandleRegionEvent ⟨some "resetDuration", some "U2", none, "Behavior.B2"⟩
        ⟨some ⟨[]⟩, true, some true⟩ resNone ⟨0⟩ 1 =
      ⟨some ⟨[]⟩, [], some JsError.typeError⟩) :=
  ⟨by decide, by decide, by decide,
   C2_null_resolution_no_mutation ⟨[]⟩ true none ⟨some "U1", false, "Behavior.B1"⟩ "U1"
     ⟨some "add", some "U2", none, "Behavior.B2"⟩
     ⟨some "resetDuration", some "U2", none, "Behavior.B2"⟩
     resNone ⟨0⟩ 1 rfl (by decide) (by decide) rfl (by decide) rfl (by decide)⟩

/-- Claim C3: `validateJoint` rejects exactly the configurations whose action
is add/resetDuration with a missing (falsy) uuid or enable/disable/delete with
a missing (falsy) name, with a descriptive message naming the field and the
action; in particular action add with a uuid present and action delete with a
name present are both accepted. -/
theorem C3_validateJoint_characterization (action uuid name : Option String) :
    ((validateJoint action uuid name = Except.ok ()) ↔
      ¬(((action = some "add" ∨ action = some "resetDuration") ∧ jsFalsy uuid = true) ∨
        ((action = some "enable" ∨ action = some "disable" ∨ action = some "delete") ∧
          jsFalsy name = true))) ∧
    validateJoint (some "add") none name =
      Except.error "The uuid field is required for the add action" ∧
    validateJoint (some "enable") uuid none =
      Except.error "The name field is required for the enable action" ∧
    (jsFalsy uuid = false → validateJoint (some "add") uuid name = Except.ok ()) ∧
    (jsFalsy name = false → validateJoint (some "delete") uuid name = Except.ok ()) := by
  refine ⟨?_, by rfl, by rfl, ?_, ?_⟩
  · rw [validateJoint]
    by_cases h1 : ((action == some "add" || action == some "resetDuration") &&
        jsFalsy uuid) = true
    · rw [if_pos h1]
      simp only [Bool.and_eq_true, Bool.or_eq_true, beq_iff_eq] at h1
      constructor
      · intro h
        exact Except.noConfusion h
      · intro h
        exact absurd (Or.inl h1) h
    · rw [if_neg h1]
      simp only [Bool.and_eq_true, Bool.or_eq_true, beq_iff_eq] at h1
      by_cases h2 : ((action == some "enable" || action == some "disable" ||
          action == some "delete") && jsFalsy name) = true
      · rw [if_pos h2]
        simp only [Bool.and_eq_true, Bool.or_eq_true, beq_iff_eq] at h2
        constructor
        · intro h
          exact Except.noConfusion h
        · intro h
          exact absurd (Or.inr ⟨or_assoc.mp h2.1, h2.2⟩) h
      · rw [if_neg h2]
        simp only [Bool.and_eq_true, Bool.or_eq_true, beq_iff_eq] at h2
        constructor
        · intro _ h
          rcases h with ⟨ha, hf⟩ | ⟨ha, hf⟩
          · exact h1 ⟨ha, hf⟩
          · exact h2 ⟨or_assoc.mpr ha, hf⟩
        · intro _
          rfl
  · intro hfu
    rw [validateJoint, if_neg (by simp [hfu]), if_neg (by simp)]
  · intro hfn
    rw [validateJoint, if_neg (by simp), if_neg (by simp [hfn])]

/-- Claim C3 witness: action add with a present uuid and action delete with a
present name are both accepted by validateJoint. -/
theorem C3_validateJoint_characterization_witness :
    jsFalsy (some "Actor.A.ActiveEffect.E") = false ∧
    jsFalsy (some "Slowed") = false ∧
    validateJoint (some "add") (some "Actor.A.ActiveEffect.E") none = Except.ok () ∧
    validateJoint (some "delete") none (some "Slowed") = Except.ok () :=
  ⟨by decide, by decide,
   (C3_validateJoint_characterization (some "add")
     (some "Actor.A.ActiveEffect.E") none).2.2.2.1 (by decide),
   (C3_validateJoint_characterization (some "delete")
     none (some "Slowed")).2.2.2.2 (by decide)⟩

/-- A concrete effect document already linked to behavior `Behavior.B1` by its
origin, for concrete evaluations. -/
def e0 : EffectDoc := ⟨3, "Chilled", some "Behavior.B1", false, false, ⟨9⟩⟩

/-- Dispatch helper: with action `resetDuration` the events handler defers to
`aeeOnResetDuration`. -/
theorem aeeHandle_resetDuration_eq (b : ActiveEffectEventsBehavior) (a : ActorState)
    (sf : Bool) (resolve : String → Option EffectDoc) (initDur : Duration) (freshId : Nat)
    (hact : b.action = some "resetDuration") :
    aeeHandleRegionEvent b ⟨some a, sf, some true⟩ resolve initDur freshId =
      ⟨some (aeeOnResetDuration b a resolve initDur).1,
       (aeeOnResetDuration b a resolve initDur).2.1,
       (aeeOnResetDuration b a resolve initDur).2.2⟩ := by
  rw [aeeHandleRegionEvent, hact]
  rfl

/-- Claim C4: on token exit with the guards passing and an origin-matching
effect present on the actor: if `disable` is set the handler only updates that
effect to `disabled := true` (one update, document count unchanged, patched
document still present); if `disable` is not set the handler deletes the
document outright (one delete, document count down by one). -/
theorem C4_exit_disable_or_delete (b : ActiveEffectBehavior) (u : String) (a : ActorState)
    (e : EffectDoc) (gm : Option Bool)
    (hu : b.uuid = some u) (hu' : u ≠ "")
    (hfind : a.effects.find? (originMatch b.behaviorUuid) = some e) :
    (b.disable = true →
      aeOnTokenExit b ⟨some a, true, gm⟩ =
        ⟨some ⟨replaceFirst (originMatch b.behaviorUuid)
            (fun x => { x with disabled := true }) a.effects⟩,
         [Mutation.updateEffect e.id ⟨none, some true⟩], none⟩ ∧
      (replaceFirst (originMatch b.behaviorUuid)
          (fun x => { x with disabled := true }) a.effects).length = a.effects.length ∧
      { e with disabled := true } ∈ replaceFirst (originMatch b.behaviorUuid)
          (fun x => { x with disabled := true }) a.effects) ∧
    (b.disable = false →
      aeOnTokenExit b ⟨some a, true, gm⟩ =
        ⟨some ⟨eraseFirst (originMatch b.behaviorUuid) a.effects⟩,
         [Mutation.deleteEffect e.id], none⟩ ∧
      (eraseFirst (originMatch b.behaviorUuid) a.effects).length + 1 = a.effects.length) := by
  constructor
  · intro hdis
    refine ⟨?_, replaceFirst_length _ _ _, mem_replaceFirst hfind⟩
    rw [aeOnTokenExit]
    simp only [hu, jsFalsy, hu', decide_eq_true_eq]
    rw [if_neg (by simp [hu']), if_neg (by simp)]
    rw [hfind, hdis]
    rfl
  · intro hdis
    refine ⟨?_, eraseFirst_length hfind⟩
    rw [aeOnTokenExit]
    simp only [hu, jsFalsy, hu', decide_eq_true_eq]
    rw [if_neg (by simp [hu']), if_neg (by simp)]
    rw [hfind, hdis]
    rfl

/-- Claim C4 witness: a concrete exit with `disable = true` on an actor that
holds the origin-linked effect. -/
theorem C4_exit_disable_or_delete_witness :
    "U1" ≠ "" ∧
    (ActorState.mk [e0]).effects.find? (originMatch "Behavior.B1") = some e0 ∧
    ((true = true →
      aeOnTokenExit ⟨some "U1", true, "Behavior.B1"⟩ ⟨some ⟨[e0]⟩, true, none⟩ =
        ⟨some ⟨replaceFirst (originMatch "Behavior.B1")
            (fun x => { x with disabled := true }) (ActorState.mk [e0]).effects⟩,
         [Mutation.updateEffect e0.id ⟨none, some true⟩], none⟩ ∧
      (replaceFirst (originMatch "Behavior.B1")
          (fun x => { x with disabled := true }) (ActorState.mk [e0]).effects).length =
        (ActorState.mk [e0]).effects.length ∧
      { e0 with disabled := true } ∈ replaceFirst (originMatch "Behavior.B1")
          (fun x => { x with disabled := true }) (ActorState.mk [e0]).effects) ∧
    (true = false →
      aeOnTokenExit ⟨some "U1", true, "Behavior.B1"⟩ ⟨some ⟨[e0]⟩, true, none⟩ =
        ⟨some ⟨eraseFirst (originMatch "Behavior.B1") (ActorState.mk [e0]).effects⟩,
         [Mutation.deleteEffect e0.id], none⟩ ∧
      (eraseFirst (originMatch "Behavior.B1")
          (ActorState.mk [e0]).effects).length + 1 = (ActorState.mk [e0]).effects.length)) :=
  ⟨by decide, by decide,
   C4_exit_disable_or_delete ⟨some "U1", true, "Behavior.B1"⟩ "U1" ⟨[e0]⟩ e0 none
     rfl (by decide) (by decide)⟩

/-- Claim C5: whenever there is no active GM, or the active GM is a different
client than the local one, the events handler performs no document mutation at
all: the actor is unchanged, the mutation log is empty, and no error occurs. -/
theorem C5_activeGM_gate (b : ActiveEffectEventsBehavior) (ev : RegionEvent)
    (resolve : String → Option EffectDoc) (initDur : Duration) (freshId : Nat) :
    aeeHandleRegionEvent b ⟨ev.actor, ev.userIsSelf, none⟩ resolve initDur freshId =
      ⟨ev.actor, [], none⟩ ∧
    aeeHandleRegionEvent b ⟨ev.actor, ev.userIsSelf, some false⟩ resolve initDur freshId =
      ⟨ev.actor, [], none⟩ := by
  constructor <;> (rcases ev with ⟨actor, sf, gm⟩; cases actor <;> rfl)

/-- Claim C6: on token enter with an actor, a configured status id and a
self-triggering user, the status handler toggles the status on with the
configured overlay flag; on exit under the same guards it toggles it off with
no overlay option; with a missing actor, a falsy status id, or a non-self
user, both handlers do nothing, silently. -/
theorem C6_status_enter_exit (sid : String) (ov : Bool) (a : ActorState)
    (gm : Option Bool) (hsid : sid ≠ "") :
    statusOnTokenEnter ⟨some sid, ov⟩ ⟨some a, true, gm⟩ =
      ⟨some a, [Mutation.toggleStatus sid (some true) (some ov)], none⟩ ∧
    statusOnTokenExit ⟨some sid, ov⟩ ⟨some a, true, gm⟩ =
      ⟨some a, [Mutation.toggleStatus sid (some false) none], none⟩ ∧
    (∀ (b : StatusEffectBehavior) (sf : Bool) (gm' : Option Bool),
      statusOnTokenEnter b ⟨none, sf, gm'⟩ = ⟨none, [], none⟩ ∧
      statusOnTokenExit b ⟨none, sf, gm'⟩ = ⟨none, [], none⟩) ∧
    (∀ (b : StatusEffectBehavior) (ev : RegionEvent), jsFalsy b.statusId = true →
      statusOnTokenEnter b ev = ⟨ev.actor, [], none⟩ ∧
      statusOnTokenExit b ev = ⟨ev.actor, [], none⟩) ∧
    (∀ (b : StatusEffectBehavior) (a' : ActorState) (gm' : Option Bool),
      statusOnTokenEnter b ⟨some a', false, gm'⟩ = ⟨some a', [], none⟩ ∧
      statusOnTokenExit b ⟨some a', false, gm'⟩ = ⟨some a', [], none⟩) := by
  refine ⟨?_, ?_, ?_, ?_, ?_⟩
  · simp only [statusOnTokenEnter]
    rw [if_neg (by simp [jsFalsy, hsid]), if_neg (by simp)]
    rfl
  · simp only [statusOnTokenExit]
    rw [if_neg (by simp [jsFalsy, hsid]), if_neg (by simp)]
    rfl
  · intro b sf gm'
    exact ⟨rfl, rfl⟩
  · intro b ev hb
    rcases ev with ⟨actor, sf, gm'⟩
    cases actor with
    | none => exact ⟨rfl, rfl⟩
    | some a' =>
      constructor
      · simp only [statusOnTokenEnter]
        rw [if_pos hb]
      · simp only [statusOnTokenExit]
        rw [if_pos hb]
  · intro b a' gm'
    constructor
    · simp only [statusOnTokenEnter]
      cases hb : jsFalsy b.statusId <;> rfl
    · simp only [statusOnTokenExit]
      cases hb : jsFalsy b.statusId <;> rfl

/-- Claim C6 witness: a concrete enter as the triggering user with status id
"prone" and overlay on. -/
theorem C6_status_enter_exit_witness :
    "prone" ≠ "" ∧
    statusOnTokenEnter ⟨some "prone", true⟩ ⟨some ⟨[]⟩, true, none⟩ =
      ⟨some ⟨[]⟩, [Mutation.toggleStatus "prone" (some true) (some true)], none⟩ :=
  ⟨by decide, (C6_status_enter_exit "prone" true ⟨[]⟩ none (by decide)).1⟩

/-- Claim C7: the status events handler maps its action to the toggle's
`active` argument as apply → true, remove → false, toggle → undefined, and it
fires whenever an actor and a status id are present — for any value of the
triggering user's self flag, i.e. with no self-check gate. -/
theorem C7_events_action_mapping (sid : String) (ov : Bool) (a : ActorState)
    (sf : Bool) (gm : Option Bool) (hsid : sid ≠ "") :
    statusEventsHandleRegionEvent ⟨some sid, "apply", ov⟩ ⟨some a, sf, gm⟩ =
      ⟨some a, [Mutation.toggleStatus sid (some true) (some ov)], none⟩ ∧
    statusEventsHandleRegionEvent ⟨some sid, "remove", ov⟩ ⟨some a, sf, gm⟩ =
      ⟨some a, [Mutation.toggleStatus sid (some false) (some ov)], none⟩ ∧
    statusEventsHandleRegionEvent ⟨some sid, "toggle", ov⟩ ⟨some a, sf, gm⟩ =
      ⟨some a, [Mutation.toggleStatus sid none (some ov)], none⟩ := by
  refine ⟨?_, ?_, ?_⟩ <;>
    (simp only [statusEventsHandleRegionEvent]
     rw [if_neg (by simp [jsFalsy, hsid])]
     rfl)

/-- Claim C7 witness: a concrete apply action delivered to a non-triggering
client (self flag false) still toggles the status on. -/
theorem C7_events_action_mapping_witness :
    "prone" ≠ "" ∧
    statusEventsHandleRegionEvent ⟨some "prone", "apply", false⟩ ⟨some ⟨[]⟩, false, none⟩ =
      ⟨some ⟨[]⟩, [Mutation.toggleStatus "prone" (some true) (some false)], none⟩ :=
  ⟨by decide, (C7_events_action_mapping "prone" false ⟨[]⟩ false none (by decide)).1⟩

/-- Claim C8: all six handlers of the four behavior variants, invoked on an
event whose token has no actor, return immediately: no document mutation, no
exception. -/
theorem C8_missing_actor_noop (b1 : StatusEffectBehavior) (b2 : StatusEffectEventsBehavior)
    (b3 : ActiveEffectBehavior) (b4 : ActiveEffectEventsBehavior)
    (sf : Bool) (gm : Option Bool) (resolve : String → Option EffectDoc)
    (initDur : Duration) (freshId : Nat) :
    statusOnTokenEnter b1 ⟨none, sf, gm⟩ = ⟨none, [], none⟩ ∧
    statusOnTokenExit b1 ⟨none, sf, gm⟩ = ⟨none, [], none⟩ ∧
    statusEventsHandleRegionEvent b2 ⟨none, sf, gm⟩ = ⟨none, [], none⟩ ∧
    aeOnTokenEnter b3 ⟨none, sf, gm⟩ resolve initDur freshId = ⟨none, [], none⟩ ∧
    aeOnTokenExit b3 ⟨none, sf, gm⟩ = ⟨none, [], none⟩ ∧
    aeeHandleRegionEvent b4 ⟨none, sf, gm⟩ resolve initDur freshId = ⟨none, [], none⟩ :=
  ⟨rfl, rfl, rfl, rfl, rfl, rfl⟩

/-- Claim C9: the resetDuration action resolves the template by the configured
uuid and looks the actor's effect up by the template's name; if found it
patches only that effect's duration fields to the initial duration, if not it
performs no mutation and raises no error; and the result does not depend on
the behavior's configured name field. -/
theorem C9_resetDuration_by_template_name (b : ActiveEffectEventsBehavior) (a : ActorState)
    (tmpl : EffectDoc) (u : String) (sf : Bool)
    (resolve : String → Option EffectDoc) (initDur : Duration) (freshId : Nat)
    (hact : b.action = some "resetDuration")
    (hu : b.uuid = some u) (hres : resolve u = some tmpl) :
    (a.effects.find? (fun e => e.name == tmpl.name) = none →
      aeeHandleRegionEvent b ⟨some a, sf, some true⟩ resolve initDur freshId =
        ⟨some a, [], none⟩) ∧
    (∀ e : EffectDoc, a.effects.find? (fun x => x.name == tmpl.name) = some e →
      aeeHandleRegionEvent b ⟨some a, sf, some true⟩ resolve initDur freshId =
        ⟨some ⟨replaceFirst (fun x => x.name == tmpl.name)
            (fun x => { x with duration := initDur }) a.effects⟩,
         [Mutation.updateEffect e.id ⟨some initDur, none⟩], none⟩) ∧
    (∀ n : Option String,
      aeeHandleRegionEvent { b with name := n } ⟨some a, sf, some true⟩ resolve initDur
          freshId =
        aeeHandleRegionEvent b ⟨some a, sf, some true⟩ resolve initDur freshId) := by
  have hred : aeeOnResetDuration b a resolve initDur =
      (match a.effects.find? (fun e => e.name == tmpl.name) with
       | some existing =>
         (⟨replaceFirst (fun e => e.name == tmpl.name)
             (fun e => { e with duration := initDur }) a.effects⟩,
          [Mutation.updateEffect existing.id ⟨some initDur, none⟩], none)
       | none => (a, [], none)) := by
    unfold aeeOnResetDuration
    rw [hu]
    show (match resolve u with | none => _ | some eff => _) = _
    rw [hres]
  refine ⟨?_, ?_, ?_⟩
  · intro hfind
    rw [aeeHandle_resetDuration_eq b a sf resolve initDur freshId hact, hred, hfind]
  · intro e hfind
    rw [aeeHandle_resetDuration_eq b a sf resolve initDur freshId hact, hred, hfind]
  · intro n
    rw [aeeHandle_resetDuration_eq b a sf resolve initDur freshId hact,
        aeeHandle_resetDuration_eq { b with name := n } a sf resolve initDur freshId hact]
    rfl

/-- Claim C9 witness: a concrete resetDuration whose actor does not hold an
effect named like the template: a silent no-op. -/
theorem C9_resetDuration_by_template_name_witness :
    (⟨some "resetDuration", some "U1", none, "Behavior.B2"⟩ :
        ActiveEffectEventsBehavior).action = some "resetDuration" ∧
    res0 "U1" = some tmpl0 ∧
    (ActorState.mk [e0]).effects.find? (fun e => e.name == tmpl0.name) = none ∧
    aeeHandleRegionEvent ⟨some "resetDuration", some "U1", none, "Behavior.B2"⟩
        ⟨some ⟨[e0]⟩, true, some true⟩ res0 ⟨0⟩ 1 = ⟨some ⟨[e0]⟩, [], none⟩ :=
  ⟨rfl, by decide, by decide,
   (C9_resetDuration_by_template_name ⟨some "resetDuration", some "U1", none, "Behavior.B2"⟩
     ⟨[e0]⟩ tmpl0 "U1" true res0 ⟨0⟩ 1 rfl rfl (by decide)).1 (by decide)⟩

end RegionActiveEffects
